import Mathlib

/-!
Shallow embedding of `sdk/ml/azure-ai-ml/azure/ai/ml/entities/_job/automl/tabular/forecasting_job.py`
(class `ForecastingJob`), together with models of the external collaborators it uses
(base-class behaviour, the primary-metric enumeration, string helpers and the nested
settings records), which are not part of the sources and are therefore modelled from
the specification.

Conventions of the embedding:
* Python `None` becomes `Option.none`; optional fields are `Option` valued.
* Field values whose concrete domain is irrelevant to the verified properties
  (data references, tags, identity configurations, ...) are modelled as `String`.
* Mutating methods become state-passing functions `ForecastingJob → ... → ForecastingJob`;
  methods that can raise become `Except`-valued functions.
-/

namespace AzureML

/-- `new if new is not None else old` — the update idiom used throughout
`set_forecast_settings` and the training-settings update. -/
def keep {α : Type} (new : Option α) (old : Option α) : Option α :=
  match new with
  | some v => some v
  | none => old

/-- Substring occurrence test on lists of characters: `pat` occurs contiguously in `l`. -/
def has_sub (pat : List Char) : List Char → Bool
  | [] => decide (pat = [])
  | c :: rest => pat.isPrefixOf (c :: rest) || has_sub pat rest

/-- Substring occurrence test on strings. -/
def str_has_sub (s pat : String) : Bool :=
  has_sub pat.data s.data

/-- Modelled from the spec: `is_data_binding_expression(str(value), ["parent"])` from
`azure.ai.ml._utils.utils` (not part of the sources) recognizes a deferred-binding
placeholder by "a fixed syntactic pattern referencing a pipeline-parameter namespace":
the string contains a `$\x7b\x7bparent....\x7d\x7d` data-binding expression. -/
def is_data_binding_expression (s : String) : Bool :=
  str_has_sub s "$\x7b\x7bparent." && str_has_sub s "\x7d\x7d"

/-- Modelled from the spec: the effect of `camel_to_snake(value).upper()` composed with
the case-insensitive enumeration lookup is that metric spellings "differing only by
case/separator" are equivalent; the canonical form drops the separator and folds case. -/
def normalize_metric_name (s : String) : String :=
  String.mk ((s.data.filter (fun c => c ≠ '_')).map Char.toUpper)

/-- Modelled from the spec: the fixed forecasting primary-metric enumeration
(`ForecastingPrimaryMetrics` of the generated REST models, not part of the sources). -/
inductive ForecastingPrimaryMetrics : Type
  | normalized_root_mean_squared_error
  | normalized_mean_absolute_error
  | r2_score
  | spearman_correlation
  deriving DecidableEq

/-- The wire value of each member of the metric enumeration. -/
def ForecastingPrimaryMetrics.value : ForecastingPrimaryMetrics → String
  | .normalized_root_mean_squared_error => "NormalizedRootMeanSquaredError"
  | .normalized_mean_absolute_error => "NormalizedMeanAbsoluteError"
  | .r2_score => "R2Score"
  | .spearman_correlation => "SpearmanCorrelation"

/-- The members of the metric enumeration. -/
def metric_members : List ForecastingPrimaryMetrics :=
  [.normalized_root_mean_squared_error, .normalized_mean_absolute_error,
   .r2_score, .spearman_correlation]

/-- The valid metric names (wire spellings). -/
def metric_names : List String :=
  metric_members.map ForecastingPrimaryMetrics.value

/-- Modelled from the spec: case/separator-insensitive lookup of a string against the
fixed metric enumeration (`ForecastingPrimaryMetrics[camel_to_snake(value).upper()]`). -/
def metric_lookup (s : String) : Option ForecastingPrimaryMetrics :=
  metric_members.find? (fun m => normalize_metric_name m.value == normalize_metric_name s)

/-- Modelled from the spec: the invalid-value error signalled on lookup failure,
"naming the offending input and the valid set". -/
structure MetricError : Type where
  input : String
  valid_values : List String
  deriving DecidableEq

/-- `ForecastingJob._DEFAULT_PRIMARY_METRIC = ForecastingPrimaryMetrics.NORMALIZED_ROOT_MEAN_SQUARED_ERROR`. -/
def DEFAULT_PRIMARY_METRIC : ForecastingPrimaryMetrics :=
  .normalized_root_mean_squared_error

/-- Modelled from the spec: the nested `ForecastingSettings` record (externally defined,
consumed here); one optional field per forecasting-specific parameter, every field
absent in a freshly constructed record. Union-typed values (`str` or `int` or lists)
are modelled as strings; `cv_step_size` (an `int`) as a natural number. -/
structure ForecastingSettings : Type where
  country_or_region_for_holidays : Option String := none
  cv_step_size : Option Nat := none
  forecast_horizon : Option String := none
  target_lags : Option String := none
  target_rolling_window_size : Option String := none
  frequency : Option String := none
  feature_lags : Option String := none
  seasonality : Option String := none
  use_stl : Option String := none
  short_series_handling_config : Option String := none
  target_aggregate_function : Option String := none
  time_column_name : Option String := none
  time_series_id_column_names : Option String := none
  features_unknown_at_forecast_time : Option String := none
  deriving DecidableEq

/-- Modelled from the spec: the `ForecastingTrainingSettings` record (externally
defined); one optional field per shared training toggle, every field absent in a
freshly constructed record. -/
structure ForecastingTrainingSettings : Type where
  enable_onnx_compatible_models : Option Bool := none
  enable_dnn_training : Option Bool := none
  enable_model_explainability : Option Bool := none
  enable_stack_ensemble : Option Bool := none
  enable_vote_ensemble : Option Bool := none
  stack_ensemble_settings : Option String := none
  ensemble_model_download_timeout : Option Nat := none
  allowed_training_algorithms : Option (List String) := none
  blocked_training_algorithms : Option (List String) := none
  training_mode : Option String := none
  deriving DecidableEq

/-- Modelled from the spec: the featurization-settings record, an external collaborator
treated as a black box (only threaded through serialization here). -/
structure TabularFeaturizationSettings : Type where
  mode : Option String := none
  deriving DecidableEq

/-- Modelled from the spec: the resource-limits record, an external collaborator
treated as a black box (only threaded through serialization here). -/
structure TabularLimitSettings : Type where
  timeout_minutes : Option Nat := none
  max_trials : Option Nat := none
  deriving DecidableEq

/-- The `ForecastingJob` entity, with the inherited tabular-job and job attributes
flattened into one record (the base classes are external collaborators; their
attributes are modelled from the spec's inherited-attribute list and from the
fields the sources read and write). `_primary_metric` always holds a string: the
wire value of a metric enumeration member, or a verbatim deferred-binding
placeholder. -/
structure ForecastingJob : Type where
  id : Option String := none
  name : Option String := none
  display_name : Option String := none
  description : Option String := none
  experiment_name : Option String := none
  tags : Option String := none
  properties : Option String := none
  compute : Option String := none
  environment_id : Option String := none
  environment_variables : Option String := none
  services : Option String := none
  outputs : Option String := none
  resources : Option String := none
  identity : Option String := none
  queue_settings : Option String := none
  status : Option String := none
  creation_context : Option String := none
  log_verbosity : Option String := none
  target_column_name : Option String := none
  weight_column_name : Option String := none
  training_data : Option String := none
  validation_data : Option String := none
  test_data : Option String := none
  validation_data_size : Option Nat := none
  test_data_size : Option Nat := none
  cv_split_column_names : Option (List String) := none
  n_cross_validations : Option Nat := none
  _featurization : Option TabularFeaturizationSettings := none
  _limits : Option TabularLimitSettings := none
  _training : Option ForecastingTrainingSettings := none
  _primary_metric : String := DEFAULT_PRIMARY_METRIC.value
  _forecasting_settings : Option ForecastingSettings := none
  deriving DecidableEq

/-- The `primary_metric` property getter (`return self._primary_metric`). -/
def ForecastingJob.primary_metric (j : ForecastingJob) : String :=
  j._primary_metric

/-- The `primary_metric` property setter (lines 76-91 of the sources): a
deferred-binding placeholder is stored verbatim; `None` resolves to the default
metric; any other value is normalized and looked up against the enumeration,
lookup failure raising an invalid-value error (modelled as `Except.error`). -/
def ForecastingJob.set_primary_metric (j : ForecastingJob) (value : Option String) :
    Except MetricError ForecastingJob :=
  match value with
  | none => .ok { j with _primary_metric := DEFAULT_PRIMARY_METRIC.value }
  | some v =>
    if is_data_binding_expression v then
      .ok { j with _primary_metric := v }
    else
      match metric_lookup v with
      | some m => .ok { j with _primary_metric := m.value }
      | none => .error { input := v, valid_values := metric_names }

/-- The `forecasting_settings` property getter. -/
def ForecastingJob.forecasting_settings (j : ForecastingJob) : Option ForecastingSettings :=
  j._forecasting_settings

/-- The `training` property getter
(`return self._training or ForecastingTrainingSettings()`). -/
def ForecastingJob.training (j : ForecastingJob) : ForecastingTrainingSettings :=
  j._training.getD {}

/-- The Python value space for the `training` setter argument
(`Union[Dict, ForecastingTrainingSettings]`). -/
inductive TrainingValue : Type
  | dict (repr : String)
  | settings (t : ForecastingTrainingSettings)
  deriving DecidableEq

/-- The `training` property setter (lines 103-105 of the sources): its body is `...`,
a no-op, so the entity is returned unchanged. -/
def ForecastingJob.training_assign (j : ForecastingJob) (_value : TrainingValue) :
    ForecastingJob :=
  j

/-- `set_forecast_settings` (lines 117-405 of the sources): lazily instantiates the
nested settings record (`self._forecasting_settings = self._forecasting_settings or
ForecastingSettings()`; a settings object is always truthy, so this is a `None`
check), then overwrites each settings field whose caller-supplied parameter
`is not None`, keeping the prior stored value otherwise.  The source performs the
assignments sequentially on distinct fields, each reading only its own prior value,
so they are rendered as one simultaneous record update. -/
def ForecastingJob.set_forecast_settings (j : ForecastingJob)
    (time_column_name : Option String)
    (forecast_horizon : Option String)
    (time_series_id_column_names : Option String)
    (target_lags : Option String)
    (feature_lags : Option String)
    (target_rolling_window_size : Option String)
    (country_or_region_for_holidays : Option String)
    (use_stl : Option String)
    (seasonality : Option String)
    (short_series_handling_config : Option String)
    (frequency : Option String)
    (target_aggregate_function : Option String)
    (cv_step_size : Option Nat)
    (features_unknown_at_forecast_time : Option String) : ForecastingJob :=
  let fs := j._forecasting_settings.getD {}
  { j with _forecasting_settings := some {
      country_or_region_for_holidays :=
        keep country_or_region_for_holidays fs.country_or_region_for_holidays
      cv_step_size := keep cv_step_size fs.cv_step_size
      forecast_horizon := keep forecast_horizon fs.forecast_horizon
      target_lags := keep target_lags fs.target_lags
      target_rolling_window_size :=
        keep target_rolling_window_size fs.target_rolling_window_size
      frequency := keep frequency fs.frequency
      feature_lags := keep feature_lags fs.feature_lags
      seasonality := keep seasonality fs.seasonality
      use_stl := keep use_stl fs.use_stl
      short_series_handling_config :=
        keep short_series_handling_config fs.short_series_handling_config
      target_aggregate_function :=
        keep target_aggregate_function fs.target_aggregate_function
      time_column_name := keep time_column_name fs.time_column_name
      time_series_id_column_names :=
        keep time_series_id_column_names fs.time_series_id_column_names
      features_unknown_at_forecast_time :=
        keep features_unknown_at_forecast_time fs.features_unknown_at_forecast_time } }

/-- Modelled from the spec: `AutoMLTabular.set_training` (the base tabular-job
behaviour, not part of the sources) — a settings-mutation operation that lazily
instantiates the training-settings record and "applies partial updates", overwriting
each shared training toggle whose caller-supplied value is not absent and leaving
the others at their prior (or freshly defaulted) values. -/
def ForecastingJob.base_set_training (j : ForecastingJob)
    (enable_onnx_compatible_models : Option Bool)
    (enable_dnn_training : Option Bool)
    (enable_model_explainability : Option Bool)
    (enable_stack_ensemble : Option Bool)
    (enable_vote_ensemble : Option Bool)
    (stack_ensemble_settings : Option String)
    (ensemble_model_download_timeout : Option Nat)
    (allowed_training_algorithms : Option (List String))
    (blocked_training_algorithms : Option (List String))
    (training_mode : Option String) : ForecastingJob :=
  let t := j._training.getD {}
  { j with _training := some {
      enable_onnx_compatible_models :=
        keep enable_onnx_compatible_models t.enable_onnx_compatible_models
      enable_dnn_training := keep enable_dnn_training t.enable_dnn_training
      enable_model_explainability :=
        keep enable_model_explainability t.enable_model_explainability
      enable_stack_ensemble := keep enable_stack_ensemble t.enable_stack_ensemble
      enable_vote_ensemble := keep enable_vote_ensemble t.enable_vote_ensemble
      stack_ensemble_settings := keep stack_ensemble_settings t.stack_ensemble_settings
      ensemble_model_download_timeout :=
        keep ensemble_model_download_timeout t.ensemble_model_download_timeout
      allowed_training_algorithms :=
        keep allowed_training_algorithms t.allowed_training_algorithms
      blocked_training_algorithms :=
        keep blocked_training_algorithms t.blocked_training_algorithms
      training_mode := keep training_mode t.training_mode } }

/-- `ForecastingJob.set_training` (lines 408-500 of the sources): delegates to the
base tabular-job `set_training`, then — because stack ensembling is not supported
for forecasting — if the caller did not pass `enable_stack_ensemble` and a
training record exists, forces `enable_stack_ensemble` to `False`. -/
def ForecastingJob.set_training (j : ForecastingJob)
    (enable_onnx_compatible_models : Option Bool)
    (enable_dnn_training : Option Bool)
    (enable_model_explainability : Option Bool)
    (enable_stack_ensemble : Option Bool)
    (enable_vote_ensemble : Option Bool)
    (stack_ensemble_settings : Option String)
    (ensemble_model_download_timeout : Option Nat)
    (allowed_training_algorithms : Option (List String))
    (blocked_training_algorithms : Option (List String))
    (training_mode : Option String) : ForecastingJob :=
  let j2 := j.base_set_training enable_onnx_compatible_models enable_dnn_training
    enable_model_explainability enable_stack_ensemble enable_vote_ensemble
    stack_ensemble_settings ensemble_model_download_timeout
    allowed_training_algorithms blocked_training_algorithms training_mode
  match enable_stack_ensemble with
  | some _ => j2
  | none =>
    match j2._training with
    | none => j2
    | some t => { j2 with _training := some { t with enable_stack_ensemble := some false } }

/-- Modelled from the spec: the base tabular-job equality (`super().__eq__`, an
external base type), comparing the inherited tabular-job attributes. -/
def ForecastingJob.eq_base (a b : ForecastingJob) : Bool :=
  decide (a.id = b.id) && decide (a.name = b.name) &&
  decide (a.display_name = b.display_name) && decide (a.description = b.description) &&
  decide (a.experiment_name = b.experiment_name) && decide (a.tags = b.tags) &&
  decide (a.properties = b.properties) && decide (a.compute = b.compute) &&
  decide (a.environment_id = b.environment_id) &&
  decide (a.environment_variables = b.environment_variables) &&
  decide (a.services = b.services) && decide (a.outputs = b.outputs) &&
  decide (a.resources = b.resources) && decide (a.identity = b.identity) &&
  decide (a.queue_settings = b.queue_settings) && decide (a.status = b.status) &&
  decide (a.creation_context = b.creation_context) &&
  decide (a.log_verbosity = b.log_verbosity) &&
  decide (a.target_column_name = b.target_column_name) &&
  decide (a.weight_column_name = b.weight_column_name) &&
  decide (a.training_data = b.training_data) &&
  decide (a.validation_data = b.validation_data) && decide (a.test_data = b.test_data) &&
  decide (a.validation_data_size = b.validation_data_size) &&
  decide (a.test_data_size = b.test_data_size) &&
  decide (a.cv_split_column_names = b.cv_split_column_names) &&
  decide (a.n_cross_validations = b.n_cross_validations) &&
  decide (a._featurization = b._featurization) && decide (a._limits = b._limits) &&
  decide (a._training = b._training)

/-- `__eq__` restricted to two `ForecastingJob` operands (lines 680-683 of the
sources): base equality, then `primary_metric` and `_forecasting_settings`. -/
def ForecastingJob.eq_fj (a b : ForecastingJob) : Bool :=
  ForecastingJob.eq_base a b &&
  (decide (a.primary_metric = b.primary_metric) &&
   decide (a._forecasting_settings = b._forecasting_settings))

/-- `__ne__` restricted to two `ForecastingJob` operands (lines 685-686 of the
sources): `not self.__eq__(other)`. -/
def ForecastingJob.ne_fj (a b : ForecastingJob) : Bool :=
  !(ForecastingJob.eq_fj a b)

/-- An arbitrary Python object, as far as `__eq__` is concerned: either another
`ForecastingJob` or a value of some other type. -/
inductive PyObject : Type
  | forecastingJob (j : ForecastingJob)
  | other (repr : String)
  deriving DecidableEq

/-- The result of a Python rich-comparison method: a boolean, or the
`NotImplemented` sentinel. -/
inductive PyEqResult : Type
  | result (b : Bool)
  | notImplemented
  deriving DecidableEq

/-- `__eq__` on an arbitrary object (lines 676-683 of the sources): an operand that
is not a `ForecastingJob` yields `NotImplemented` rather than an exception. -/
def ForecastingJob.eq_obj (j : ForecastingJob) : PyObject → PyEqResult
  | .forecastingJob o => .result (ForecastingJob.eq_fj j o)
  | .other _ => .notImplemented

/-- Modelled from the spec: the wire-format `Forecasting` task-details object of the
generated REST models, whose "field names ... match the remote service's published
schema verbatim"; each nested record's wire form is the record's own faithful
field-by-field copy, so the wire form is modelled by the record type itself. -/
structure RestForecasting : Type where
  target_column_name : Option String := none
  training_data : Option String := none
  validation_data : Option String := none
  validation_data_size : Option Nat := none
  weight_column_name : Option String := none
  cv_split_column_names : Option (List String) := none
  n_cross_validations : Option Nat := none
  test_data : Option String := none
  test_data_size : Option Nat := none
  featurization_settings : Option TabularFeaturizationSettings := none
  limit_settings : Option TabularLimitSettings := none
  training_settings : Option ForecastingTrainingSettings := none
  primary_metric : String := DEFAULT_PRIMARY_METRIC.value
  log_verbosity : Option String := none
  forecasting_settings : Option ForecastingSettings := none
  deriving DecidableEq

/-- Modelled from the spec: the wire-format `AutoMLJob` properties object (job-level
metadata plus the task details). `status` exists on the wire but is never written by
`_to_rest_object`. -/
structure RestAutoMLJob : Type where
  display_name : Option String := none
  description : Option String := none
  experiment_name : Option String := none
  tags : Option String := none
  compute_id : Option String := none
  properties : Option String := none
  environment_id : Option String := none
  environment_variables : Option String := none
  services : Option String := none
  outputs : Option String := none
  resources : Option String := none
  task_details : RestForecasting := {}
  identity : Option String := none
  queue_settings : Option String := none
  status : Option String := none
  deriving DecidableEq

/-- Modelled from the spec: the outer wire job envelope (`JobBase`). `id` and
`system_data` exist on the wire but are never written by `_to_rest_object`. -/
structure JobBase : Type where
  properties : RestAutoMLJob
  name : Option String := none
  id : Option String := none
  system_data : Option String := none
  deriving DecidableEq

/-- Modelled from the spec: `ForecastingSettings._to_rest_object`, a delegated
converter producing the record's "own wire-converted form"; with the wire form
modelled by the record itself it is the faithful copy. -/
def ForecastingSettings.to_rest_object (fs : ForecastingSettings) : ForecastingSettings :=
  fs

/-- Modelled from the spec: `ForecastingSettings._from_rest_object`, the inverse
delegated converter. -/
def ForecastingSettings.from_rest_object (fs : ForecastingSettings) : ForecastingSettings :=
  fs

/-- Modelled from the spec: `TabularFeaturizationSettings` wire conversion (delegated
black-box converter pair). -/
def TabularFeaturizationSettings.to_rest_object (f : TabularFeaturizationSettings) :
    TabularFeaturizationSettings :=
  f

/-- Modelled from the spec: inverse of `TabularFeaturizationSettings.to_rest_object`. -/
def TabularFeaturizationSettings.from_rest_object (f : TabularFeaturizationSettings) :
    TabularFeaturizationSettings :=
  f

/-- Modelled from the spec: `TabularLimitSettings` wire conversion (delegated
black-box converter pair). -/
def TabularLimitSettings.to_rest_object (l : TabularLimitSettings) : TabularLimitSettings :=
  l

/-- Modelled from the spec: inverse of `TabularLimitSettings.to_rest_object`. -/
def TabularLimitSettings.from_rest_object (l : TabularLimitSettings) : TabularLimitSettings :=
  l

/-- Modelled from the spec: `ForecastingTrainingSettings` wire conversion (delegated
black-box converter pair). -/
def ForecastingTrainingSettings.to_rest_object (t : ForecastingTrainingSettings) :
    ForecastingTrainingSettings :=
  t

/-- Modelled from the spec: inverse of `ForecastingTrainingSettings.to_rest_object`. -/
def ForecastingTrainingSettings.from_rest_object (t : ForecastingTrainingSettings) :
    ForecastingTrainingSettings :=
  t

/-- Modelled from the spec: `identity._to_job_rest_object()`, a delegated black-box
converter on the (string-modelled) identity configuration. -/
def identity_to_job_rest_object (i : String) : String :=
  i

/-- Modelled from the spec: `_BaseJobIdentityConfiguration._from_rest_object`, the
inverse delegated converter. -/
def identity_from_rest_object (i : String) : String :=
  i

/-- Modelled from the spec: `to_rest_data_outputs`, a delegated converter on the
(string-modelled) outputs mapping. -/
def to_rest_data_outputs (o : Option String) : Option String :=
  o

/-- Modelled from the spec: `from_rest_data_outputs`, "its own inverse converter". -/
def from_rest_data_outputs (o : Option String) : Option String :=
  o

/-- Modelled from the spec: `self._resolve_data_inputs(forecasting_task)`, a base-class
structural correction of the data inputs on the wire task; on this model's flat data
representation it changes nothing. -/
def resolve_data_inputs (t : RestForecasting) : RestForecasting :=
  t

/-- Modelled from the spec: `self._validation_data_to_rest(forecasting_task)`, the
second outbound structural correction; identity on this model. -/
def validation_data_to_rest (t : RestForecasting) : RestForecasting :=
  t

/-- Modelled from the spec: `forecasting_job._restore_data_inputs()`, the inbound
counterpart of `resolve_data_inputs`; identity on this model. -/
def restore_data_inputs (j : ForecastingJob) : ForecastingJob :=
  j

/-- Modelled from the spec: `forecasting_job._validation_data_from_rest()`, the
inbound counterpart of `validation_data_to_rest`; identity on this model. -/
def validation_data_from_rest (j : ForecastingJob) : ForecastingJob :=
  j

/-- The keyword-argument surface of the `ForecastingJob` constructor, as exercised by
the sources (`__init__` plus the keyword arguments forwarded to the base classes,
which are modelled from the spec's inherited-attribute list). Every argument is
optional, mirroring the Python keyword defaults. -/
structure InitArgs : Type where
  primary_metric : Option String := none
  forecasting_settings : Option ForecastingSettings := none
  featurization : Option TabularFeaturizationSettings := none
  limits : Option TabularLimitSettings := none
  training : Option ForecastingTrainingSettings := none
  id : Option String := none
  name : Option String := none
  display_name : Option String := none
  description : Option String := none
  experiment_name : Option String := none
  tags : Option String := none
  properties : Option String := none
  compute : Option String := none
  environment_id : Option String := none
  environment_variables : Option String := none
  services : Option String := none
  outputs : Option String := none
  resources : Option String := none
  identity : Option String := none
  queue_settings : Option String := none
  status : Option String := none
  creation_context : Option String := none
  log_verbosity : Option String := none
  target_column_name : Option String := none
  weight_column_name : Option String := none
  training_data : Option String := none
  validation_data : Option String := none
  test_data : Option String := none
  validation_data_size : Option Nat := none
  test_data_size : Option Nat := none
  cv_split_column_names : Option (List String) := none
  n_cross_validations : Option Nat := none
  deriving DecidableEq

/-- `ForecastingJob.__init__` (lines 42-64 of the sources): the base classes store
the forwarded keyword arguments (modelled from the spec), then
`self.primary_metric = primary_metric or ForecastingJob._DEFAULT_PRIMARY_METRIC`
runs the `primary_metric` setter (Python `or` treats both `None` and the empty
string as absent), and `self._forecasting_settings = forecasting_settings`.
An invalid metric makes the constructor raise, modelled as `Except.error`. -/
def ForecastingJob.init (a : InitArgs) : Except MetricError ForecastingJob :=
  let j : ForecastingJob := {
    id := a.id, name := a.name, display_name := a.display_name,
    description := a.description, experiment_name := a.experiment_name,
    tags := a.tags, properties := a.properties, compute := a.compute,
    environment_id := a.environment_id,
    environment_variables := a.environment_variables,
    services := a.services, outputs := a.outputs, resources := a.resources,
    identity := a.identity, queue_settings := a.queue_settings,
    status := a.status, creation_context := a.creation_context,
    log_verbosity := a.log_verbosity,
    target_column_name := a.target_column_name,
    weight_column_name := a.weight_column_name,
    training_data := a.training_data, validation_data := a.validation_data,
    test_data := a.test_data, validation_data_size := a.validation_data_size,
    test_data_size := a.test_data_size,
    cv_split_column_names := a.cv_split_column_names,
    n_cross_validations := a.n_cross_validations,
    _featurization := a.featurization, _limits := a.limits,
    _training := a.training,
    _primary_metric := "",
    _forecasting_settings := a.forecasting_settings }
  let pm : String :=
    match a.primary_metric with
    | some s => if s = "" then DEFAULT_PRIMARY_METRIC.value else s
    | none => DEFAULT_PRIMARY_METRIC.value
  j.set_primary_metric (some pm)

/-- `_to_rest_object` (lines 502-562 of the sources): builds the wire task-details
object — in the branch where `_forecasting_settings` is present its wire form is
attached, otherwise the wire field is `None` — applies the two outbound structural
corrections, and wraps the result with the job-level metadata into the outer
envelope, on which only `name` is set. -/
def ForecastingJob.to_rest_object (j : ForecastingJob) : JobBase :=
  let forecasting_task : RestForecasting :=
    match j._forecasting_settings with
    | some fs => {
        target_column_name := j.target_column_name
        training_data := j.training_data
        validation_data := j.validation_data
        validation_data_size := j.validation_data_size
        weight_column_name := j.weight_column_name
        cv_split_column_names := j.cv_split_column_names
        n_cross_validations := j.n_cross_validations
        test_data := j.test_data
        test_data_size := j.test_data_size
        featurization_settings := j._featurization.map TabularFeaturizationSettings.to_rest_object
        limit_settings := j._limits.map TabularLimitSettings.to_rest_object
        training_settings := j._training.map ForecastingTrainingSettings.to_rest_object
        primary_metric := j.primary_metric
        log_verbosity := j.log_verbosity
        forecasting_settings := some fs.to_rest_object }
    | none => {
        target_column_name := j.target_column_name
        training_data := j.training_data
        validation_data := j.validation_data
        validation_data_size := j.validation_data_size
        weight_column_name := j.weight_column_name
        cv_split_column_names := j.cv_split_column_names
        n_cross_validations := j.n_cross_validations
        test_data := j.test_data
        test_data_size := j.test_data_size
        featurization_settings := j._featurization.map TabularFeaturizationSettings.to_rest_object
        limit_settings := j._limits.map TabularLimitSettings.to_rest_object
        training_settings := j._training.map ForecastingTrainingSettings.to_rest_object
        primary_metric := j.primary_metric
        log_verbosity := j.log_verbosity
        forecasting_settings := none }
  let forecasting_task := validation_data_to_rest (resolve_data_inputs forecasting_task)
  let props : RestAutoMLJob := {
    display_name := j.display_name
    description := j.description
    experiment_name := j.experiment_name
    tags := j.tags
    compute_id := j.compute
    properties := j.properties
    environment_id := j.environment_id
    environment_variables := j.environment_variables
    services := j.services
    outputs := to_rest_data_outputs j.outputs
    resources := j.resources
    task_details := forecasting_task
    identity := j.identity.map identity_to_job_rest_object
    queue_settings := j.queue_settings }
  { properties := props, name := j.name }

/-- `_from_rest_object` (lines 564-627 of the sources): extracts the job-level
metadata (`environment_id` and `environment_variables` are not among the extracted
keys) and the task-details fields, rebuilding each nested record only when its wire
counterpart is present, constructs a new entity, and applies the two inbound
structural corrections. -/
def ForecastingJob.from_rest_object (obj : JobBase) : Except MetricError ForecastingJob :=
  let props := obj.properties
  let task_details := props.task_details
  let built := ForecastingJob.init {
    id := obj.id
    name := obj.name
    description := props.description
    tags := props.tags
    properties := props.properties
    experiment_name := props.experiment_name
    services := props.services
    status := props.status
    creation_context := obj.system_data
    display_name := props.display_name
    compute := props.compute_id
    outputs := from_rest_data_outputs props.outputs
    resources := props.resources
    identity := props.identity.map identity_from_rest_object
    queue_settings := props.queue_settings
    target_column_name := task_details.target_column_name
    training_data := task_details.training_data
    validation_data := task_details.validation_data
    validation_data_size := task_details.validation_data_size
    weight_column_name := task_details.weight_column_name
    cv_split_column_names := task_details.cv_split_column_names
    n_cross_validations := task_details.n_cross_validations
    test_data := task_details.test_data
    test_data_size := task_details.test_data_size
    featurization := task_details.featurization_settings.map TabularFeaturizationSettings.from_rest_object
    limits := task_details.limit_settings.map TabularLimitSettings.from_rest_object
    training := task_details.training_settings.map ForecastingTrainingSettings.from_rest_object
    primary_metric := some task_details.primary_metric
    forecasting_settings := task_details.forecasting_settings.map ForecastingSettings.from_rest_object
    log_verbosity := task_details.log_verbosity }
  built.map (fun fj => validation_data_from_rest (restore_data_inputs fj))

/-! ## Helper lemmas -/

/-- A deferred-binding placeholder is never the empty string. -/
lemma binding_ne_empty {s : String} (h : is_data_binding_expression s = true) : s ≠ "" := by
  intro he
  rw [he] at h
  exact absurd h (by decide)

/-- If a pattern occurs contiguously in a list, the pattern's first character is a
member of the list. -/
lemma has_sub_head_mem {c : Char} {pat l : List Char} (hpat : pat.head? = some c)
    (h : has_sub pat l = true) : c ∈ l := by
  induction l with
  | nil =>
    cases pat with
    | nil => simp at hpat
    | cons a as => simp [has_sub] at h
  | cons x rest ih =>
    simp only [has_sub, Bool.or_eq_true] at h
    rcases h with h | h
    · cases pat with
      | nil => simp at hpat
      | cons a as =>
        simp only [List.head?] at hpat
        injection hpat with hac
        subst hac
        simp only [List.isPrefixOf, Bool.and_eq_true, beq_iff_eq] at h
        exact h.1 ▸ List.mem_cons_self _ _
    · exact List.mem_cons_of_mem _ (ih h)

/-- A character that is neither the separator nor changed by case folding survives
metric-name normalization. -/
lemma mem_normalize {c : Char} {s : String} (hc : c ≠ '_') (hu : c.toUpper = c)
    (h : c ∈ s.data) : c ∈ (normalize_metric_name s).data := by
  simp only [normalize_metric_name]
  exact List.mem_map.mpr ⟨c, List.mem_filter.mpr ⟨h, by simpa using hc⟩, hu⟩

/-- A successful metric lookup equates the normal forms of the input and of the found
member's wire value. -/
lemma lookup_norm_eq {s : String} {m : ForecastingPrimaryMetrics}
    (h : metric_lookup s = some m) :
    normalize_metric_name m.value = normalize_metric_name s := by
  have := List.find?_some h
  exact eq_of_beq this

/-- A string that resolves against the metric enumeration is not a deferred-binding
placeholder (placeholders contain a dollar sign, metric names do not). -/
lemma lookup_not_binding {s : String} {m : ForecastingPrimaryMetrics}
    (h : metric_lookup s = some m) : is_data_binding_expression s = false := by
  by_contra hb
  rw [Bool.not_eq_false, is_data_binding_expression, Bool.and_eq_true] at hb
  have hdollar : '$' ∈ s.data := has_sub_head_mem (by decide) hb.1
  have hmem : '$' ∈ (normalize_metric_name s).data :=
    mem_normalize (by decide) (by decide) hdollar
  rw [← lookup_norm_eq h] at hmem
  cases m <;> simp [ForecastingPrimaryMetrics.value, normalize_metric_name] at hmem

/-- Each member's own wire value looks up to that member. -/
lemma lookup_value {m : ForecastingPrimaryMetrics} : metric_lookup m.value = some m := by
  cases m <;> rfl

/-- No member's wire value is a deferred-binding placeholder. -/
lemma binding_value_false {m : ForecastingPrimaryMetrics} :
    is_data_binding_expression m.value = false := by
  cases m <;> rfl

/-- No member's wire value is the empty string. -/
lemma value_ne_empty {m : ForecastingPrimaryMetrics} : m.value ≠ "" := by
  cases m <;> decide

/-- The outbound/inbound identity-configuration converter pair composes to the
identity on an optional identity. -/
lemma map_identity_pair (o : Option String) :
    Option.map (identity_from_rest_object ∘ identity_to_job_rest_object) o = o := by
  cases o <;> rfl

/-- The featurization-settings converter pair composes to the identity. -/
lemma map_featurization_pair (o : Option TabularFeaturizationSettings) :
    Option.map (TabularFeaturizationSettings.from_rest_object ∘
      TabularFeaturizationSettings.to_rest_object) o = o := by
  cases o <;> rfl

/-- The limit-settings converter pair composes to the identity. -/
lemma map_limits_pair (o : Option TabularLimitSettings) :
    Option.map (TabularLimitSettings.from_rest_object ∘
      TabularLimitSettings.to_rest_object) o = o := by
  cases o <;> rfl

/-- The training-settings converter pair composes to the identity. -/
lemma map_training_pair (o : Option ForecastingTrainingSettings) :
    Option.map (ForecastingTrainingSettings.from_rest_object ∘
      ForecastingTrainingSettings.to_rest_object) o = o := by
  cases o <;> rfl

/-- A stored `_primary_metric` is well formed when it is what the setter can produce:
a deferred-binding placeholder stored verbatim, or the wire value of an enumeration
member. -/
def valid_primary_metric (s : String) : Prop :=
  is_data_binding_expression s = true ∨ ∃ m : ForecastingPrimaryMetrics, s = m.value

/-- Two entities identical except for the forecasting-settings seasonality. -/
def job_with_seasonality (s : String) : ForecastingJob :=
  { _forecasting_settings := some { seasonality := some s } }

/-! ## Claim theorems -/

/-- Claim C1: `set_forecast_settings` lazily instantiates the nested
forecasting-settings record if absent and then overwrites exactly those fields whose
caller-supplied parameter is present, every absent parameter keeping the prior
stored value (or the fresh record's default); in particular, a call supplying only
`time_column_name` followed by a call supplying only `seasonality` yields a record
with both fields populated and every other field at its default. -/
theorem set_forecast_settings_partial_update (j : ForecastingJob)
    (tc fh tsid tl fl trws corh ustl seas sshc freq taf : Option String)
    (cvs : Option Nat) (fuaft : Option String) :
    (j.set_forecast_settings tc fh tsid tl fl trws corh ustl seas sshc freq taf cvs fuaft)._forecasting_settings
      = some {
        country_or_region_for_holidays :=
          keep corh (j._forecasting_settings.getD {}).country_or_region_for_holidays
        cv_step_size := keep cvs (j._forecasting_settings.getD {}).cv_step_size
        forecast_horizon := keep fh (j._forecasting_settings.getD {}).forecast_horizon
        target_lags := keep tl (j._forecasting_settings.getD {}).target_lags
        target_rolling_window_size :=
          keep trws (j._forecasting_settings.getD {}).target_rolling_window_size
        frequency := keep freq (j._forecasting_settings.getD {}).frequency
        feature_lags := keep fl (j._forecasting_settings.getD {}).feature_lags
        seasonality := keep seas (j._forecasting_settings.getD {}).seasonality
        use_stl := keep ustl (j._forecasting_settings.getD {}).use_stl
        short_series_handling_config :=
          keep sshc (j._forecasting_settings.getD {}).short_series_handling_config
        target_aggregate_function :=
          keep taf (j._forecasting_settings.getD {}).target_aggregate_function
        time_column_name := keep tc (j._forecasting_settings.getD {}).time_column_name
        time_series_id_column_names :=
          keep tsid (j._forecasting_settings.getD {}).time_series_id_column_names
        features_unknown_at_forecast_time :=
          keep fuaft (j._forecasting_settings.getD {}).features_unknown_at_forecast_time } ∧
    ((({} : ForecastingJob).set_forecast_settings (some "date") none none none none none
        none none none none none none none none).set_forecast_settings none none none none
        none none none none (some "7") none none none none none)._forecasting_settings
      = some { time_column_name := some "date", seasonality := some "7" } :=
  ⟨rfl, rfl⟩

/-- Claim C2: `set_training` called without `enable_stack_ensemble` always leaves
stack ensembling disabled — after delegating to the base behaviour the
forecasting-specific override forces the flag to `False` on every call,
whatever the prior state. -/
theorem set_training_forces_stack_ensemble_off (j : ForecastingJob)
    (a b c e : Option Bool) (ses : Option String) (emt : Option Nat)
    (ata bta : Option (List String)) (tm : Option String) :
    ((j.set_training a b c none e ses emt ata bta tm)._training).map
      (fun t => t.enable_stack_ensemble) = some (some false) :=
  rfl

/-- Claim C3: assigning a string that is neither a deferred-binding placeholder nor
(after case/separator normalization) a member of the metric enumeration signals an
invalid-value error naming the offending input and the valid metric set; the error
propagates (modelled by `Except.error`) so no updated entity is produced and the
`primary_metric` field of the caller's entity is unchanged. -/
theorem set_primary_metric_invalid_error (j : ForecastingJob) (v : String)
    (hbind : is_data_binding_expression v = false) (hlook : metric_lookup v = none) :
    j.set_primary_metric (some v) = .error { input := v, valid_values := metric_names } := by
  simp [ForecastingJob.set_primary_metric, hbind, hlook]

/-- Witness for C3 at the concrete invalid input `"bogus"`. -/
theorem set_primary_metric_invalid_error_witness :
    ({} : ForecastingJob).set_primary_metric (some "bogus")
      = .error { input := "bogus", valid_values := metric_names } :=
  set_primary_metric_invalid_error {} "bogus" rfl rfl

/-- Counterexample to claim C4 as stated: an entity with `environment_id` set loses
that field across entity → wire → entity, because `_from_rest_object` does not list
`environment_id` among the extracted job arguments (lines 569-587 of the sources),
so the round trip does not reproduce all fields set on the original entity. -/
theorem round_trip_drops_environment_id :
    ({ environment_id := some "env-1" } : ForecastingJob).environment_id = some "env-1" ∧
    ForecastingJob.from_rest_object
        (ForecastingJob.to_rest_object { environment_id := some "env-1" })
      = .ok ({} : ForecastingJob) ∧
    ({} : ForecastingJob).environment_id = none :=
  ⟨rfl, rfl, rfl⟩

/-- Claim C4 (amended): entity → wire → entity reproduces every field the wire round
trip carries — all task-details fields including forecasting-settings absence
preserved as absence — while `id`, `status`, `creation_context`, `environment_id`
and `environment_variables` come back unset (`_to_rest_object` never emits the
first three and `_from_rest_object` never restores the last two). -/
theorem round_trip_amended (j : ForecastingJob) (h : valid_primary_metric j._primary_metric) :
    ForecastingJob.from_rest_object (ForecastingJob.to_rest_object j)
      = .ok { j with id := none, status := none, creation_context := none,
                     environment_id := none, environment_variables := none } := by
  rcases h with hb | ⟨m, hm⟩
  · have hne : j._primary_metric ≠ "" := binding_ne_empty hb
    rcases hfs : j._forecasting_settings with _ | fs <;>
      simp [ForecastingJob.from_rest_object, ForecastingJob.to_rest_object,
        ForecastingJob.init, ForecastingJob.set_primary_metric, hfs, hne, hb,
        resolve_data_inputs, validation_data_to_rest, restore_data_inputs,
        validation_data_from_rest, to_rest_data_outputs, from_rest_data_outputs,
        identity_to_job_rest_object, identity_from_rest_object,
        TabularFeaturizationSettings.to_rest_object,
        TabularFeaturizationSettings.from_rest_object,
        TabularLimitSettings.to_rest_object, TabularLimitSettings.from_rest_object,
        ForecastingTrainingSettings.to_rest_object,
        ForecastingTrainingSettings.from_rest_object,
        ForecastingSettings.to_rest_object, ForecastingSettings.from_rest_object,
        ForecastingJob.primary_metric, map_identity_pair, map_featurization_pair,
        map_limits_pair, map_training_pair, Except.map]
  · rcases hfs : j._forecasting_settings with _ | fs <;>
      rw [ForecastingJob.from_rest_object, ForecastingJob.to_rest_object] <;>
      simp [hfs, hm, ForecastingJob.init, ForecastingJob.set_primary_metric,
        value_ne_empty, binding_value_false, lookup_value,
        resolve_data_inputs, validation_data_to_rest, restore_data_inputs,
        validation_data_from_rest, to_rest_data_outputs, from_rest_data_outputs,
        identity_to_job_rest_object, identity_from_rest_object,
        TabularFeaturizationSettings.to_rest_object,
        TabularFeaturizationSettings.from_rest_object,
        TabularLimitSettings.to_rest_object, TabularLimitSettings.from_rest_object,
        ForecastingTrainingSettings.to_rest_object,
        ForecastingTrainingSettings.from_rest_object,
        ForecastingSettings.to_rest_object, ForecastingSettings.from_rest_object,
        ForecastingJob.primary_metric, map_identity_pair, map_featurization_pair,
        map_limits_pair, map_training_pair, Except.map]

/-- Witness for the amended C4 at a concrete entity (whose five non-carried fields
are already absent, so the round trip reproduces it exactly, with the absent
forecasting settings staying absent). -/
theorem round_trip_amended_witness :
    valid_primary_metric ({} : ForecastingJob)._primary_metric ∧
    ForecastingJob.from_rest_object (ForecastingJob.to_rest_object ({} : ForecastingJob))
      = .ok ({} : ForecastingJob) :=
  ⟨Or.inr ⟨.normalized_root_mean_squared_error, rfl⟩,
   round_trip_amended {} (Or.inr ⟨.normalized_root_mean_squared_error, rfl⟩)⟩

/-- Claim C5: two `ForecastingJob` entities are equal exactly when the base
tabular-job equality holds and the primary metrics agree and the
forecasting-settings values agree (absence included); inequality is the logical
negation; and two entities differing only in the forecasting-settings seasonality
compare unequal while identical entities compare equal. -/
theorem eq_iff_base_metric_settings (a b : ForecastingJob) :
    (ForecastingJob.eq_fj a b = true ↔
      (ForecastingJob.eq_base a b = true ∧ a.primary_metric = b.primary_metric ∧
        a._forecasting_settings = b._forecasting_settings)) ∧
    ForecastingJob.ne_fj a b = !ForecastingJob.eq_fj a b ∧
    ForecastingJob.eq_fj (job_with_seasonality "7") (job_with_seasonality "8") = false ∧
    ForecastingJob.eq_fj (job_with_seasonality "7") (job_with_seasonality "7") = true := by
  refine ⟨?_, rfl, by decide, by decide⟩
  simp [ForecastingJob.eq_fj, Bool.and_eq_true]

/-- Claim C6: a deferred-binding placeholder string assigned to `primary_metric` is
stored verbatim with no enumeration validation and no error, and reading the
property afterwards returns that exact string. -/
theorem set_primary_metric_binding_verbatim (j : ForecastingJob) (v : String)
    (h : is_data_binding_expression v = true) :
    j.set_primary_metric (some v) = .ok { j with _primary_metric := v } ∧
    ({ j with _primary_metric := v } : ForecastingJob).primary_metric = v :=
  ⟨by simp [ForecastingJob.set_primary_metric, h], rfl⟩

/-- Witness for C6 at a concrete placeholder string. -/
theorem set_primary_metric_binding_verbatim_witness :
    is_data_binding_expression "$\x7b\x7bparent.inputs.metric\x7d\x7d" = true ∧
    ({} : ForecastingJob).set_primary_metric (some "$\x7b\x7bparent.inputs.metric\x7d\x7d")
      = .ok { ({} : ForecastingJob) with
          _primary_metric := "$\x7b\x7bparent.inputs.metric\x7d\x7d" } ∧
    ({ ({} : ForecastingJob) with
        _primary_metric := "$\x7b\x7bparent.inputs.metric\x7d\x7d" } : ForecastingJob).primary_metric
      = "$\x7b\x7bparent.inputs.metric\x7d\x7d" := by
  refine ⟨by decide, ?_, ?_⟩
  · exact (set_primary_metric_binding_verbatim {} "$\x7b\x7bparent.inputs.metric\x7d\x7d" (by decide)).1
  · exact (set_primary_metric_binding_verbatim {} "$\x7b\x7bparent.inputs.metric\x7d\x7d" (by decide)).2

/-- Claim C7: `primary_metric` is never left unset — construction without an explicit
metric resolves it to the fixed default (normalized root-mean-squared error), and
assigning `None` later also yields the fixed default. -/
theorem primary_metric_defaulted (a : InitArgs) (ha : a.primary_metric = none)
    (j : ForecastingJob) :
    DEFAULT_PRIMARY_METRIC = ForecastingPrimaryMetrics.normalized_root_mean_squared_error ∧
    (ForecastingJob.init a).map ForecastingJob.primary_metric
      = .ok DEFAULT_PRIMARY_METRIC.value ∧
    j.set_primary_metric none
      = .ok { j with _primary_metric := DEFAULT_PRIMARY_METRIC.value } := by
  refine ⟨rfl, ?_, rfl⟩
  simp only [ForecastingJob.init, ha]
  rfl

/-- Witness for C7 at the empty constructor-argument record and a concrete entity. -/
theorem primary_metric_defaulted_witness :
    ({} : InitArgs).primary_metric = none ∧
    (ForecastingJob.init {}).map ForecastingJob.primary_metric
      = .ok DEFAULT_PRIMARY_METRIC.value ∧
    ({} : ForecastingJob).set_primary_metric none
      = .ok { ({} : ForecastingJob) with _primary_metric := DEFAULT_PRIMARY_METRIC.value } :=
  ⟨rfl, (primary_metric_defaulted {} rfl {}).2.1, (primary_metric_defaulted {} rfl {}).2.2⟩

/-- Claim C8: two metric spellings that differ only by case or separator convention
(equal normal forms), one of which resolves to an enumeration member, both resolve
to that same member, and assigning either to `primary_metric` stores that member's
value. -/
theorem metric_spellings_resolve_equal (s₁ s₂ : String) (m : ForecastingPrimaryMetrics)
    (hnorm : normalize_metric_name s₁ = normalize_metric_name s₂)
    (h₁ : metric_lookup s₁ = some m) (j₁ j₂ : ForecastingJob) :
    metric_lookup s₂ = some m ∧
    j₁.set_primary_metric (some s₁) = .ok { j₁ with _primary_metric := m.value } ∧
    j₂.set_primary_metric (some s₂) = .ok { j₂ with _primary_metric := m.value } := by
  have h₂ : metric_lookup s₂ = some m := by
    simp only [metric_lookup] at h₁ ⊢
    rw [← hnorm]
    exact h₁
  refine ⟨h₂, ?_, ?_⟩
  · simp [ForecastingJob.set_primary_metric, lookup_not_binding h₁, h₁]
  · simp [ForecastingJob.set_primary_metric, lookup_not_binding h₂, h₂]

/-- Witness for C8 at the camel-case and snake-case spellings of the default metric. -/
theorem metric_spellings_resolve_equal_witness :
    normalize_metric_name "NormalizedRootMeanSquaredError"
      = normalize_metric_name "normalized_root_mean_squared_error" ∧
    metric_lookup "NormalizedRootMeanSquaredError"
      = some .normalized_root_mean_squared_error ∧
    metric_lookup "normalized_root_mean_squared_error"
      = some .normalized_root_mean_squared_error ∧
    ({} : ForecastingJob).set_primary_metric (some "normalized_root_mean_squared_error")
      = .ok { ({} : ForecastingJob) with
          _primary_metric := ForecastingPrimaryMetrics.value .normalized_root_mean_squared_error } := by
  refine ⟨by decide, by decide, ?_, ?_⟩
  · exact (metric_spellings_resolve_equal "NormalizedRootMeanSquaredError"
      "normalized_root_mean_squared_error" .normalized_root_mean_squared_error
      (by decide) (by decide) {} {}).1
  · exact (metric_spellings_resolve_equal "NormalizedRootMeanSquaredError"
      "normalized_root_mean_squared_error" .normalized_root_mean_squared_error
      (by decide) (by decide) {} {}).2.2

/-- Claim C9: equality comparison of a `ForecastingJob` against an operand of any
incompatible type returns the `NotImplemented` sentinel rather than raising. -/
theorem eq_obj_incompatible_not_implemented (j : ForecastingJob) (o : String) :
    j.eq_obj (.other o) = .notImplemented :=
  rfl

/-- Claim C10: the `training` setter is a no-op — assigning any value leaves the
entity unchanged — while reading `training` when no record is stored returns a
fresh default `ForecastingTrainingSettings` rather than an absent value. -/
theorem training_assign_noop (j : ForecastingJob) (v : TrainingValue) :
    j.training_assign v = j ∧
    (j._training = none → j.training = ({} : ForecastingTrainingSettings)) :=
  ⟨rfl, fun h => by simp [ForecastingJob.training, h]⟩

/-- Witness for C10 at a concrete entity with no stored training record. -/
theorem training_assign_noop_witness :
    ({} : ForecastingJob).training_assign (.dict "value") = ({} : ForecastingJob) ∧
    ({} : ForecastingJob).training = ({} : ForecastingTrainingSettings) :=
  ⟨(training_assign_noop {} (.dict "value")).1, (training_assign_noop {} (.dict "value")).2 rfl⟩

end AzureML
